import Mathlib

/-!
Verification of the `AutoPolicy` controller of DI-drive
(`src/core/policy/auto_policy.py`).

The policy keeps, per environment id, a low-level vehicle PID controller and a
cached "last steer" value.  `_forward` arbitrates between normal PID tracking
and an emergency stop; `_reset` constructs a fresh controller for an id.

Shallow embedding conventions:
* machine floats of the source are modelled as `Rat` (all the arithmetic the
  claims touch is order comparisons, `min`, and addition);
* Python dicts keyed by env id are modelled as insertion-ordered association
  lists (`List (Int × _)`): lookup finds the first matching key, `pop` removes
  the key, insertion overwrites in place when the key is present and appends
  otherwise — exactly CPython's observable dict behavior for these operations;
* the external collaborators `VehiclePIDController` and `SteerNoiseWrapper`
  (imported from `core.models`, whose source is not part of this tree) are
  modelled from the spec as an opaque stateful step function and a
  steer-perturbing decorator;
* a Python `KeyError` is an explicit `Except` error value;
* the `data_id is None` branch of `_reset_eval` / `_reset_collect` iterates
  the controller dict while `_reset` mutates it; its behavior depends on
  CPython dict internals that an association list cannot express, so that
  branch is modelled separately at the end of the definitions by a fine-grained
  CPython 3.11 dict model (entries array with tombstones, usable-slot counter,
  iterator length guard).
-/

/-- A PID gain set `{K_P, K_D, K_I, dt}` (source: the `*_DICT` constants). -/
structure GainDict where
  K_P : Rat
  K_D : Rat
  K_I : Rat
  dt : Rat
deriving DecidableEq

/-- `DEFAULT_LATERAL_DICT = {'K_P': 1, 'K_D': 0.1, 'K_I': 0, 'dt': 0.1}`. -/
def DEFAULT_LATERAL_DICT : GainDict := { K_P := 1, K_D := 1/10, K_I := 0, dt := 1/10 }

/-- `DEFAULT_LONGITUDINAL_DICT = {'K_P': 1.0, 'K_D': 0, 'K_I': 0.05, 'dt': 0.1}`. -/
def DEFAULT_LONGITUDINAL_DICT : GainDict := { K_P := 1, K_D := 0, K_I := 1/20, dt := 1/10 }

/-- `DEFAULT_LAT_HW_DICT = {'K_P': 0.75, 'K_D': 0.01, 'K_I': 0.2, 'dt': 0.1}`. -/
def DEFAULT_LAT_HW_DICT : GainDict := { K_P := 3/4, K_D := 1/100, K_I := 1/5, dt := 1/10 }

/-- `DEFAULT_LAT_CITY_DICT = {'K_P': 0.58, 'K_D': 0.01, 'K_I': 0.25, 'dt': 0.1}`. -/
def DEFAULT_LAT_CITY_DICT : GainDict := { K_P := 58/100, K_D := 1/100, K_I := 1/4, dt := 1/10 }

/-- `DEFAULT_LONG_HW_DICT = {'K_P': 0.37, 'K_D': 0.012, 'K_I': 0.016, 'dt': 0.1}`. -/
def DEFAULT_LONG_HW_DICT : GainDict := { K_P := 37/100, K_D := 12/1000, K_I := 16/1000, dt := 1/10 }

/-- `DEFAULT_LONG_CITY_DICT = {'K_P': 0.15, 'K_D': 0.025, 'K_I': 0.035, 'dt': 0.1}`. -/
def DEFAULT_LONG_CITY_DICT : GainDict := { K_P := 15/100, K_D := 25/1000, K_I := 35/1000, dt := 1/10 }

/-- A 3-vector observation field (location / orientation / target waypoint). -/
structure Vec3 where
  x : Rat
  y : Rat
  z : Rat
deriving DecidableEq

/-- A control command `{steer, throttle, brake}` as returned by `_forward`. -/
structure Control where
  steer : Rat
  throttle : Rat
  brake : Rat
deriving DecidableEq

/-- The `noise_kwargs` range of the steer-noise wrapper. -/
structure NoiseCfg where
  low : Rat
  high : Rat
deriving DecidableEq

/-- The positional arguments of `VehiclePIDController.forward` as passed by
`AutoPolicy._forward` (source lines 120-126). -/
structure PIDInput where
  current_speed : Rat
  current_location : Vec3
  current_orientation : Vec3
  target_speed : Rat
  target_location : Vec3
deriving DecidableEq

/-- Modelled from the spec: the low-level motion controller
(`VehiclePIDController` in `core.models`, whose code is not under `src/`):
"given current speed/location/orientation, target speed/location, returns a
clamped `{steer, throttle, brake}` command using independent lateral and
longitudinal PID loops".  Its numeric behavior is opaque here: an arbitrary
step function over an abstract accumulated-error state `σ`, where `init` is
the internal state a freshly constructed controller starts from. -/
structure PIDSpec (σ : Type) where
  init : σ
  step : σ → PIDInput → Control × σ

/-- One controller instance as stored in `_controller_dict`: the construction
arguments of `VehiclePIDController` (source lines 83-89), the optional
steer-noise decoration (source lines 90-98), and the opaque accumulated PID
error state. -/
structure Controller (σ : Type) where
  args_lateral : GainDict
  args_longitudinal : GainDict
  max_throttle : Rat
  max_brake : Rat
  max_steering : Rat
  noise : Option NoiseCfg
  state : σ
deriving DecidableEq

/-- Modelled from the spec: `SteerNoiseWrapper` (`core.models`, not under
`src/`) "decorates the motion controller's output, perturbing `steer` by a
uniform random offset in a configured range, leaving throttle/brake
untouched".  The random draw is supplied externally as `sample`; theorems
about the uniform range constrain `sample` to lie in the stored `NoiseCfg`. -/
def steerNoise (noise : Option NoiseCfg) (sample : Rat) (c : Control) : Control :=
  match noise with
  | none => c
  | some _ => { c with steer := c.steer + sample }

variable {σ : Type}

/-- A forward step of the stored controller object: the underlying PID step,
decorated by the steer-noise wrapper when the controller was reset with
noise. -/
def Controller.forward (pid : PIDSpec σ) (c : Controller σ) (sample : Rat)
    (inp : PIDInput) : Control × Controller σ :=
  let out := pid.step c.state inp
  (steerNoise c.noise sample out.1, { c with state := out.2 })

/-- Python dict lookup `d[k]`: first entry with the key. -/
def dictGet : List (Int × α) → Int → Option α
  | [], _ => none
  | (k', v) :: rest, k => if k' = k then some v else dictGet rest k

/-- Python dict `d.pop(k)` (also a no-op when `k` is absent, matching the
guarded `if data_id in ...: pop` in the source). -/
def dictPop : List (Int × α) → Int → List (Int × α)
  | [], _ => []
  | (k', v) :: rest, k => if k' = k then dictPop rest k else (k', v) :: dictPop rest k

/-- Python dict assignment `d[k] = v`: overwrite in place when the key is
present, append otherwise. -/
def dictInsert : List (Int × α) → Int → α → List (Int × α)
  | [], k, v => [(k, v)]
  | (k', v') :: rest, k, v =>
    if k' = k then (k, v) :: rest else (k', v') :: dictInsert rest k v

/-- Number of entries carrying the key `k`. -/
def dictCount : List (Int × α) → Int → Nat
  | [], _ => 0
  | (k', _) :: rest, k => (if k' = k then 1 else 0) + dictCount rest k

/-- A Python lookup failure (`KeyError`) surfaced by `_forward`. -/
inductive PyErr
  | keyError : Int → PyErr
deriving DecidableEq

deriving instance DecidableEq for Except

/-- One per-environment observation record consumed by `_forward`. -/
structure Obs where
  command : Int
  agent_state : Int
  tl_state : Int
  tl_dis : Rat
  speed : Rat
  location : Vec3
  orientation : Vec3
  target : Vec3
  speed_limit : Rat
deriving DecidableEq

/-- The configuration surface of the policy (class attribute `config`). -/
structure PolicyCfg where
  target_speed : Rat
  max_brake : Rat
  max_throttle : Rat
  max_steer : Rat
  ignore_light : Bool
  lateral_dict : Option GainDict
  longitudinal_dict : Option GainDict
  noise : Bool
  debug : Bool

/-- The default `config` dict of `AutoPolicy` (source lines 31-41). -/
def defaultConfig : PolicyCfg :=
  { target_speed := 25, max_brake := 3/10, max_throttle := 3/4, max_steer := 4/5,
    ignore_light := false, lateral_dict := some DEFAULT_LATERAL_DICT,
    longitudinal_dict := some DEFAULT_LONGITUDINAL_DICT, noise := false, debug := false }

/-- The mutable attributes of one `AutoPolicy` object.  Note that the source
creates a single `_controller_dict` and a single `_last_steer_dict` in
`__init__` (lines 49-50); both the `collect`- and `eval`-mode methods read and
write these same two attributes. -/
structure PolicyState (σ : Type) where
  target_speed : Rat
  max_brake : Rat
  max_throttle : Rat
  max_steer : Rat
  ignore_light : Bool
  lateral_dict : Option GainDict
  longitudinal_dict : Option GainDict
  cfg_noise : Bool
  debug : Bool
  controller_dict : List (Int × Controller σ)
  last_steer_dict : List (Int × Rat)

namespace AutoPolicy

/-- `AutoPolicy._init` (source lines 54-66): load the configuration and clear
the (shared) controller and last-steer dicts.  `__init__` runs this once per
mode, on the same attributes, so the constructed state is this for both
modes. -/
def init (σ : Type) (cfg : PolicyCfg) : PolicyState σ :=
  { target_speed := cfg.target_speed, max_brake := cfg.max_brake,
    max_throttle := cfg.max_throttle, max_steer := cfg.max_steer,
    ignore_light := cfg.ignore_light, lateral_dict := cfg.lateral_dict,
    longitudinal_dict := cfg.longitudinal_dict, cfg_noise := cfg.noise,
    debug := cfg.debug, controller_dict := [], last_steer_dict := [] }

/-- The lateral gain set `_reset` resolves (source lines 72-76): an explicit
configured dict is kept, otherwise the highway preset when the target speed
exceeds 50 and the city preset otherwise. -/
def resolvedLateral (p : PolicyState σ) : GainDict :=
  match p.lateral_dict with
  | none => if p.target_speed > 50 then DEFAULT_LAT_HW_DICT else DEFAULT_LAT_CITY_DICT
  | some d => d

/-- The longitudinal gain set `_reset` resolves (source lines 77-81). -/
def resolvedLongitudinal (p : PolicyState σ) : GainDict :=
  match p.longitudinal_dict with
  | none => if p.target_speed > 50 then DEFAULT_LONG_HW_DICT else DEFAULT_LONG_CITY_DICT
  | some d => d

/-- The controller object `_reset` constructs (source lines 83-101): a fresh
`VehiclePIDController` from the resolved gains and the configured clamp
limits, wrapped with uniform steer noise in `[-0.3, 0.3]` when `noise` is
true, and starting from the fresh internal PID state. -/
def freshController (pid : PIDSpec σ) (p : PolicyState σ) (noise : Bool) : Controller σ :=
  { args_lateral := resolvedLateral p, args_longitudinal := resolvedLongitudinal p,
    max_throttle := p.max_throttle, max_brake := p.max_brake,
    max_steering := p.max_steer,
    noise := if noise then some { low := -(3/10), high := 3/10 } else none,
    state := pid.init }

/-- `AutoPolicy._reset` (source lines 68-102): pop any existing controller for
the id, lazily resolve missing gain dicts (caching the resolution back into
the attributes), install a freshly constructed (optionally noise-wrapped)
controller, and zero the last-steer cache entry for the id. -/
def reset (pid : PIDSpec σ) (p : PolicyState σ) (data_id : Int) (noise : Bool) :
    PolicyState σ :=
  let cd := dictPop p.controller_dict data_id
  { p with
    lateral_dict := some (resolvedLateral p),
    longitudinal_dict := some (resolvedLongitudinal p),
    controller_dict := dictInsert cd data_id (freshController pid p noise),
    last_steer_dict := dictInsert p.last_steer_dict data_id 0 }

/-- `AutoPolicy._emergency_stop` (source lines 132-138): full brake, zero
throttle, steer from the last-steer cache (a `KeyError` if the id has no
cache entry). -/
def emergency_stop (p : PolicyState σ) (data_id : Int) : Except PyErr Control :=
  match dictGet p.last_steer_dict data_id with
  | none => .error (.keyError data_id)
  | some s => .ok { steer := s, throttle := 0, brake := 1 }

/-- The `PIDInput` `_forward` builds on its normal path (source lines
115-126): current kinematics, target waypoint, and target speed
`min(self.target_speed, obs['speed_limit'])`. -/
def pidInputOf (p : PolicyState σ) (obs : Obs) : PIDInput :=
  { current_speed := obs.speed, current_location := obs.location,
    current_orientation := obs.orientation,
    target_speed := min p.target_speed obs.speed_limit,
    target_location := obs.target }

/-- The curve throttle cap, source line 127-128:
`if abs(control['steer'] > 0.1 and current_speed > 15):`.
In Python `>` binds tighter than `and`, both operands of `and` are bools, and
`abs` of the resulting bool is `1` or `0`, so the branch is taken exactly when
`control['steer'] > 0.1` (signed, not the magnitude) and `current_speed > 15`
both hold; then `control['throttle'] = min(control['throttle'], 0.3)`. -/
def capCurve (control : Control) (current_speed : Rat) : Control :=
  if control.steer > 1/10 ∧ current_speed > 15 then
    { control with throttle := min control.throttle (3/10) }
  else control

/-- `AutoPolicy._forward` (source lines 104-130).  The controller lookup comes
first and raises `KeyError` for an unknown id.  The four emergency guards are
the source's `elif` chain; every emergency branch returns the emergency-stop
command and leaves the state untouched.  The normal path runs the stored
controller, applies the (defective, signed) curve throttle cap, stores the
mutated controller back and records the produced steer in the last-steer
cache.  `sample` is the random draw consumed by the steer-noise wrapper on
this call (unused by unwrapped controllers). -/
def forward (pid : PIDSpec σ) (p : PolicyState σ) (data_id : Int) (obs : Obs)
    (sample : Rat) : Except PyErr (Control × PolicyState σ) :=
  match dictGet p.controller_dict data_id with
  | none => .error (.keyError data_id)
  | some controller =>
    if obs.command = -1 then
      (emergency_stop p data_id).map (fun c => (c, p))
    else if obs.agent_state = 2 ∨ obs.agent_state = 3 then
      (emergency_stop p data_id).map (fun c => (c, p))
    else if p.ignore_light = false ∧ obs.agent_state = 4 then
      (emergency_stop p data_id).map (fun c => (c, p))
    else if p.ignore_light = false ∧ obs.tl_state = 0 ∧ obs.tl_dis < 10 then
      (emergency_stop p data_id).map (fun c => (c, p))
    else
      let out := Controller.forward pid controller sample (pidInputOf p obs)
      let control := capCurve out.1 obs.speed
      .ok (control, { p with
        controller_dict := dictInsert p.controller_dict data_id out.2,
        last_steer_dict := dictInsert p.last_steer_dict data_id control.steer })

/-- The shared body of `_forward_eval` and `_forward_collect` (source lines
154-188, two textually identical loops): run `_forward` for each id of the
batch in order, threading the policy state; a raised `KeyError` aborts the
whole call.  `samples` supplies the per-id random draw. -/
def forwardLoop (pid : PIDSpec σ) (p : PolicyState σ) (data : List (Int × Obs))
    (samples : Int → Rat) : Except PyErr (List (Int × Control) × PolicyState σ) :=
  match data with
  | [] => .ok ([], p)
  | (i, obs) :: rest =>
    match forward pid p i obs (samples i) with
    | .error e => .error e
    | .ok (ctl, p') =>
      match forwardLoop pid p' rest samples with
      | .error e => .error e
      | .ok (acts, p'') => .ok ((i, ctl) :: acts, p'')

/-- `AutoPolicy._forward_eval` (source lines 154-170). -/
def forward_eval (pid : PIDSpec σ) (p : PolicyState σ) (data : List (Int × Obs))
    (samples : Int → Rat) : Except PyErr (List (Int × Control) × PolicyState σ) :=
  forwardLoop pid p data samples

/-- `AutoPolicy._forward_collect` (source lines 172-188, same body as
`_forward_eval`). -/
def forward_collect (pid : PIDSpec σ) (p : PolicyState σ) (data : List (Int × Obs))
    (samples : Int → Rat) : Except PyErr (List (Int × Control) × PolicyState σ) :=
  forwardLoop pid p data samples

/-- `AutoPolicy._reset_eval` for an explicit id list (source lines 197-199):
`self._reset(id)` for each given id, with the default `noise=False`.  The
`data_id is None` branch is modelled separately (see the CPython dict model
below) because it iterates the controller dict while `_reset` mutates it. -/
def reset_eval (pid : PIDSpec σ) (p : PolicyState σ) (data_id : List Int) :
    PolicyState σ :=
  data_id.foldl (fun q i => reset pid q i false) p

/-- `AutoPolicy._reset_collect` for an explicit id list (source lines
212-215): `self._reset(id, noise)` with `noise = self._cfg.noise`. -/
def reset_collect (pid : PIDSpec σ) (p : PolicyState σ) (data_id : List Int) :
    PolicyState σ :=
  data_id.foldl (fun q i => reset pid q i p.cfg_noise) p

/-- The disjunction of the four emergency guards of `_forward` (source lines
106-113). -/
def emergencyCond (p : PolicyState σ) (obs : Obs) : Prop :=
  obs.command = -1 ∨ obs.agent_state = 2 ∨ obs.agent_state = 3 ∨
    (p.ignore_light = false ∧ obs.agent_state = 4) ∨
    (p.ignore_light = false ∧ obs.tl_state = 0 ∧ obs.tl_dis < 10)

end AutoPolicy

/-!
CPython 3.11 dict model, for the `data_id is None` branch of `_reset_eval` /
`_reset_collect` (source lines 200-202 and 216-218):

    for id in self._controller_dict:
        self._reset(id)

Each `_reset(id)` pops `id` from `self._controller_dict` and re-inserts it, so
the dict is mutated while being iterated.  CPython's combined dict keeps an
append-only entries array with tombstones: `pop` leaves a tombstone, the
re-insert appends a new entry past the iterator cursor, so the cursor reaches
re-inserted keys again; inserts consume `dk_usable` slots and, when none is
left, rebuild (compact) the table at size `2^max(3, ceil(log2(3*used)))`; the
iterator keeps a countdown `len` initialised to the live count and raises
`RuntimeError: dictionary keys changed during iteration` when it finds an
entry after the countdown is exhausted (and `RuntimeError: dictionary changed
size during iteration` when the live count changed between steps).  Only the
keys matter to iteration, so entries hold bare keys.
-/

/-- `(size << 1) / 3`: the usable-slot budget of a table of the given size. -/
def usableFraction (size : Nat) : Nat := 2 * size / 3

/-- Smallest power of two that is `≥ m` and `≥ 8`, by doubling with fuel. -/
def po2geAux : Nat → Nat → Nat → Nat
  | 0, s, _ => s
  | fuel + 1, s, m => if m ≤ s then s else po2geAux fuel (2 * s) m

/-- The table size CPython resizes to: `2^max(3, ceil(log2 m))`. -/
def po2ge (m : Nat) : Nat := po2geAux 60 8 m

/-- A CPython combined dict, reduced to what iteration observes: the entries
array (`none` = tombstone of a deleted entry), the remaining usable insert
slots, and the live entry count. -/
structure PyDictState where
  entries : List (Option Int)
  usable : Nat
  used : Nat
deriving DecidableEq

/-- A dict that has never held an entry (first insert builds a size-8 table
with 5 usable slots, so the empty dict offers 5). -/
def pyEmptyDict : PyDictState := { entries := [], usable := 5, used := 0 }

/-- Mark the (single) entry holding key `k` as a tombstone. -/
def pyEraseEntry : List (Option Int) → Int → List (Option Int)
  | [], _ => []
  | some k' :: rest, k =>
    if k' = k then none :: rest else some k' :: pyEraseEntry rest k
  | none :: rest, k => none :: pyEraseEntry rest k

/-- `d.pop(k)` for a present key: tombstone the entry; `dk_usable` is not
given back. -/
def pyPop (d : PyDictState) (k : Int) : PyDictState :=
  { entries := pyEraseEntry d.entries k, usable := d.usable, used := d.used - 1 }

/-- `d[k] = v` for an absent key: append an entry, resizing (compacting the
live entries into a fresh table of size `po2ge (3 * used)`) first when no
usable slot is left. -/
def pyInsertNew (d : PyDictState) (k : Int) : PyDictState :=
  if d.usable = 0 then
    let lives := d.entries.filterMap (fun e => e)
    let size := po2ge (3 * d.used)
    { entries := lives.map some ++ [some k],
      usable := usableFraction size - d.used - 1,
      used := d.used + 1 }
  else
    { entries := d.entries ++ [some k], usable := d.usable - 1, used := d.used + 1 }

/-- The effect of `_reset(k)` on the iterated controller dict: pop the key,
then insert the freshly built controller under the same key. -/
def pyPopInsert (d : PyDictState) (k : Int) : PyDictState :=
  pyInsertNew (pyPop d k) k

/-- Scan the entries array from an absolute index for the next live entry,
returning its absolute index and key. -/
def pyScanAux : List (Option Int) → Nat → Option (Nat × Int)
  | [], _ => none
  | none :: rest, i => pyScanAux rest (i + 1)
  | some k :: _, i => some (i, k)

/-- The next live entry at or after the iterator position. -/
def pyScan (d : PyDictState) (pos : Nat) : Option (Nat × Int) :=
  pyScanAux (d.entries.drop pos) pos

/-- Outcome of the `for id in self._controller_dict: self._reset(id)` loop:
either the iterator was exhausted normally, or a `RuntimeError` escaped; in
both cases `trace` lists the ids passed to `_reset`, in order and with
multiplicity. -/
inductive ResetAllResult
  | finished (trace : List Int)
  | runtimeError (trace : List Int)
deriving DecidableEq, Repr

/-- The loop itself: `pos`/`len` are the iterator cursor and countdown,
`du` the live count recorded at iterator creation; `none` means the fuel ran
out before the loop settled. -/
def resetAllLoop : Nat → PyDictState → Nat → Nat → Nat → List Int →
    Option ResetAllResult
  | 0, _, _, _, _, _ => none
  | fuel + 1, d, pos, len, du, acc =>
    if du ≠ d.used then some (.runtimeError acc)
    else
      match pyScan d pos with
      | none => some (.finished acc)
      | some (i, k) =>
        if len = 0 then some (.runtimeError acc)
        else resetAllLoop fuel (pyPopInsert d k) (i + 1) (len - 1) du (acc ++ [k])

/-- `_reset_eval(None)` / `_reset_collect(None)` on a controller dict in the
given internal state: iterate and `_reset` every yielded id. -/
def resetAllTrace (fuel : Nat) (d : PyDictState) : Option ResetAllResult :=
  resetAllLoop fuel d 0 d.used d.used []

/-- The controller dict of a policy whose ids were registered by `_reset`
calls on a fresh policy: successive first-time inserts into an empty dict. -/
def pyDictOfKeys (ks : List Int) : PyDictState := ks.foldl pyInsertNew pyEmptyDict

/-! Concrete fixtures for witnesses and counterexamples. -/

/-- A degenerate PID model: stateless, constant straight-ahead output. -/
def pidU : PIDSpec Unit :=
  { init := (), step := fun s _ => ({ steer := 0, throttle := 3/4, brake := 0 }, s) }

/-- A degenerate PID model producing a hard left (steer `-1/2`) at
three-quarter throttle. -/
def pidSharpLeft : PIDSpec Unit :=
  { init := (), step := fun s _ => ({ steer := -(1/2), throttle := 3/4, brake := 0 }, s) }

/-- The origin vector. -/
def v0 : Vec3 := { x := 0, y := 0, z := 0 }

/-- An observation with no route (`command = -1`): the first emergency
guard. -/
def obsEmergency : Obs :=
  { command := -1, agent_state := 0, tl_state := 1, tl_dis := 100, speed := 5,
    location := v0, orientation := v0, target := v0, speed_limit := 100 }

/-- A benign cruising observation triggering no emergency guard. -/
def obsCruise : Obs :=
  { command := 0, agent_state := 0, tl_state := 1, tl_dis := 100, speed := 5,
    location := v0, orientation := v0, target := v0, speed_limit := 100 }

/-- A fast curve observation: speed 20 (> 15), green light, no emergency. -/
def obsCurve : Obs :=
  { command := 0, agent_state := 0, tl_state := 1, tl_dis := 100, speed := 20,
    location := v0, orientation := v0, target := v0, speed_limit := 100 }

/-- A default-configured policy with id 0 freshly reset, over `pidU`. -/
def pState0 : PolicyState Unit :=
  AutoPolicy.reset pidU (AutoPolicy.init Unit defaultConfig) 0 false

/-- A default-configured policy with id 0 freshly reset, over `pidSharpLeft`. -/
def pStateSharp : PolicyState Unit :=
  AutoPolicy.reset pidSharpLeft (AutoPolicy.init Unit defaultConfig) 0 false

/-- The controller `_reset` installs for id 0 under the default config. -/
def cFresh : Controller Unit :=
  { args_lateral := DEFAULT_LATERAL_DICT, args_longitudinal := DEFAULT_LONGITUDINAL_DICT,
    max_throttle := 3/4, max_brake := 3/10, max_steering := 4/5,
    noise := none, state := () }

/-!
Helper lemmas.  (The dict model above was validated against CPython 3.11: the
loop traces of `resetAllTrace` on dicts of 1, 2, 3, 4, 5 and 11 keys coincide
with the interpreter's observed behavior, including which runs raise
`RuntimeError` and which happen to finish.)
-/

theorem dictGet_insert_self (d : List (Int × α)) (k : Int) (v : α) :
    dictGet (dictInsert d k v) k = some v := by
  induction d with
  | nil => simp [dictInsert, dictGet]
  | cons e rest ih =>
    by_cases h : e.1 = k
    · simp [dictInsert, dictGet, h]
    · simpa [dictInsert, dictGet, h] using ih

theorem dictGet_insert_ne (d : List (Int × α)) (k k' : Int) (v : α) (h : k' ≠ k) :
    dictGet (dictInsert d k v) k' = dictGet d k' := by
  have hk : ¬ k = k' := fun hh => h hh.symm
  induction d with
  | nil => simp [dictInsert, dictGet, hk]
  | cons e rest ih =>
    obtain ⟨e1, e2⟩ := e
    by_cases he : e1 = k
    · subst he
      simp [dictInsert, dictGet, hk]
    · simp [dictInsert, dictGet, he, ih]

theorem dictCount_pop_self (d : List (Int × α)) (k : Int) :
    dictCount (dictPop d k) k = 0 := by
  induction d with
  | nil => simp [dictPop, dictCount]
  | cons e rest ih =>
    by_cases h : e.1 = k
    · simpa [dictPop, h] using ih
    · simpa [dictPop, dictCount, h] using ih

theorem dictCount_insert_of_eq_zero (d : List (Int × α)) (k : Int) (v : α)
    (h : dictCount d k = 0) : dictCount (dictInsert d k v) k = 1 := by
  induction d with
  | nil => simp [dictInsert, dictCount]
  | cons e rest ih =>
    by_cases he : e.1 = k
    · exfalso
      simp [dictCount, he] at h
    · have hrest : dictCount rest k = 0 := by simpa [dictCount, he] using h
      simpa [dictInsert, dictCount, he] using ih hrest

theorem reset_controller_lookup (pid : PIDSpec σ) (p : PolicyState σ) (i : Int) (n : Bool) :
    dictGet (AutoPolicy.reset pid p i n).controller_dict i =
      some (AutoPolicy.freshController pid p n) := by
  simp only [AutoPolicy.reset]
  exact dictGet_insert_self _ _ _

theorem reset_laststeer_lookup (pid : PIDSpec σ) (p : PolicyState σ) (i : Int) (n : Bool) :
    dictGet (AutoPolicy.reset pid p i n).last_steer_dict i = some 0 := by
  simp only [AutoPolicy.reset]
  exact dictGet_insert_self _ _ _

/-- On any of the four emergency guards, `_forward` returns the cached steer
with zero throttle and full brake, and returns the policy state unchanged. -/
theorem forward_emergency_eq (pid : PIDSpec σ) (p : PolicyState σ) (i : Int) (obs : Obs)
    (sample : Rat) (c : Controller σ) (s : Rat)
    (hc : dictGet p.controller_dict i = some c)
    (hs : dictGet p.last_steer_dict i = some s)
    (h : AutoPolicy.emergencyCond p obs) :
    AutoPolicy.forward pid p i obs sample =
      .ok ({ steer := s, throttle := 0, brake := 1 }, p) := by
  have hes : AutoPolicy.emergency_stop p i =
      .ok { steer := s, throttle := 0, brake := 1 } := by
    simp [AutoPolicy.emergency_stop, hs]
  simp only [AutoPolicy.forward, hc]
  split_ifs with e1 e2 e3 e4
  · rw [hes]; rfl
  · rw [hes]; rfl
  · rw [hes]; rfl
  · rw [hes]; rfl
  · exfalso
    rcases h with h | h | h | h | h
    · exact e1 h
    · exact e2 (Or.inl h)
    · exact e2 (Or.inr h)
    · exact e3 h
    · exact e4 h

/-- When no emergency guard fires, `_forward` runs the stored controller on
the observation's kinematics with target speed `min(target_speed,
speed_limit)`, applies the curve throttle cap, stores the stepped controller
back and caches the produced steer. -/
theorem forward_normal_eq (pid : PIDSpec σ) (p : PolicyState σ) (i : Int) (obs : Obs)
    (sample : Rat) (c : Controller σ)
    (hc : dictGet p.controller_dict i = some c)
    (h1 : ¬ obs.command = -1)
    (h2 : ¬ (obs.agent_state = 2 ∨ obs.agent_state = 3))
    (h3 : ¬ (p.ignore_light = false ∧ obs.agent_state = 4))
    (h4 : ¬ (p.ignore_light = false ∧ obs.tl_state = 0 ∧ obs.tl_dis < 10)) :
    AutoPolicy.forward pid p i obs sample =
      .ok (AutoPolicy.capCurve
            (Controller.forward pid c sample (AutoPolicy.pidInputOf p obs)).1 obs.speed,
        { p with
          controller_dict := dictInsert p.controller_dict i
            (Controller.forward pid c sample (AutoPolicy.pidInputOf p obs)).2,
          last_steer_dict := dictInsert p.last_steer_dict i
            (AutoPolicy.capCurve
              (Controller.forward pid c sample (AutoPolicy.pidInputOf p obs)).1
              obs.speed).steer }) := by
  simp only [AutoPolicy.forward, hc]
  rw [if_neg h1, if_neg h2, if_neg h3, if_neg h4]

/-- After a `_reset` of an id, `_forward` on that id always succeeds (whatever
the observation: emergency guards find the zeroed last-steer cache, the
normal path finds the fresh controller). -/
theorem forward_after_reset_ok (pid : PIDSpec σ) (p : PolicyState σ) (i : Int) (n : Bool)
    (obs : Obs) (sample : Rat) :
    ∃ out, AutoPolicy.forward pid (AutoPolicy.reset pid p i n) i obs sample = .ok out := by
  by_cases h : AutoPolicy.emergencyCond (AutoPolicy.reset pid p i n) obs
  · exact ⟨_, forward_emergency_eq pid _ i obs sample _ 0
      (reset_controller_lookup pid p i n) (reset_laststeer_lookup pid p i n) h⟩
  · simp only [AutoPolicy.emergencyCond, not_or] at h
    obtain ⟨h1, h2a, h2b, h3, h4⟩ := h
    exact ⟨_, forward_normal_eq pid _ i obs sample _
      (reset_controller_lookup pid p i n) h1 (not_or.mpr ⟨h2a, h2b⟩) h3 h4⟩

/-- `_forward` never creates a controller entry: an id absent from the
controller dict stays absent across a successful `_forward` call. -/
theorem forward_preserves_none (pid : PIDSpec σ) (p : PolicyState σ) (i : Int) (obs : Obs)
    (sample : Rat) (r : Control × PolicyState σ)
    (hf : AutoPolicy.forward pid p i obs sample = .ok r) (j : Int)
    (hj : dictGet p.controller_dict j = none) :
    dictGet r.2.controller_dict j = none := by
  have hij : j ≠ i := by
    intro hh
    subst hh
    cases hget : dictGet p.controller_dict j with
    | none =>
      rw [AutoPolicy.forward, hget] at hf
      exact absurd hf (by simp)
    | some c =>
      rw [hget] at hj
      exact absurd hj (by simp)
  cases hget : dictGet p.controller_dict i with
  | none =>
    rw [AutoPolicy.forward, hget] at hf
    exact absurd hf (by simp)
  | some c =>
    rw [AutoPolicy.forward, hget] at hf
    split_ifs at hf
    case _ =>
      cases hes : AutoPolicy.emergency_stop p i with
      | error e => rw [hes] at hf; exact absurd hf (by simp [Except.map])
      | ok ctl =>
        rw [hes] at hf
        simp only [Except.map, Except.ok.injEq] at hf
        rw [← hf]
        exact hj
    case _ =>
      cases hes : AutoPolicy.emergency_stop p i with
      | error e => rw [hes] at hf; exact absurd hf (by simp [Except.map])
      | ok ctl =>
        rw [hes] at hf
        simp only [Except.map, Except.ok.injEq] at hf
        rw [← hf]
        exact hj
    case _ =>
      cases hes : AutoPolicy.emergency_stop p i with
      | error e => rw [hes] at hf; exact absurd hf (by simp [Except.map])
      | ok ctl =>
        rw [hes] at hf
        simp only [Except.map, Except.ok.injEq] at hf
        rw [← hf]
        exact hj
    case _ =>
      cases hes : AutoPolicy.emergency_stop p i with
      | error e => rw [hes] at hf; exact absurd hf (by simp [Except.map])
      | ok ctl =>
        rw [hes] at hf
        simp only [Except.map, Except.ok.injEq] at hf
        rw [← hf]
        exact hj
    case _ =>
      simp only [Except.ok.injEq] at hf
      rw [← hf]
      simpa [dictGet_insert_ne _ _ _ _ hij] using hj

/-!
Claim theorems.
-/

/-- Claim C1: for every environment id with a controller and every
observation, if `command = -1`, or `agent_state` is 2 or 3, or
(`ignore_light` is false and `agent_state = 4`), or (`ignore_light` is false
and `tl_state = 0` and `tl_dis < 10`), then `_forward` returns a command with
throttle 0, brake 1 and steer equal to the cached last non-emergency steer
for that id (the cache is zeroed by `_reset`, so it reads 0 when no
non-emergency step has run since the id's last reset), and the whole policy
state — in particular the last-steer cache — is unchanged by the call. -/
theorem c1_emergency_stop_invariant (pid : PIDSpec σ) (p : PolicyState σ) (i : Int)
    (obs : Obs) (sample : Rat) (c : Controller σ) (s : Rat)
    (hc : dictGet p.controller_dict i = some c)
    (hs : dictGet p.last_steer_dict i = some s)
    (h : AutoPolicy.emergencyCond p obs) :
    AutoPolicy.forward pid p i obs sample =
      .ok ({ steer := s, throttle := 0, brake := 1 }, p) :=
  forward_emergency_eq pid p i obs sample c s hc hs h

/-- Witness for C1: a freshly reset id 0 (cached steer 0) under a no-route
observation gets full brake, zero throttle, steer 0, and an unchanged
state. -/
theorem c1_emergency_stop_invariant_witness :
    AutoPolicy.forward pidU pState0 0 obsEmergency 0 =
      .ok ({ steer := 0, throttle := 0, brake := 1 }, pState0) :=
  c1_emergency_stop_invariant pidU pState0 0 obsEmergency 0 cFresh 0 rfl rfl (Or.inl rfl)

/-- Claim C2 (refuted by the code, recorded as a code bug): the claim reads
"if the PID steer magnitude exceeds 0.1 and the speed exceeds 15, the
returned throttle is at most 0.3".  At this concrete input the stored PID
produces steer `-1/2` (magnitude `1/2 > 1/10`) and throttle `3/4` at speed
`20 > 15`, and `_forward` returns throttle `3/4`, which is not `≤ 3/10`:
source line 127 tests the signed steer (`abs` is applied to the boolean
conjunction, not to the steer), so sharp left turns are never
throttle-capped. -/
theorem c2_curve_cap_missed_on_negative_steer :
    (AutoPolicy.forward pidSharpLeft pStateSharp 0 obsCurve 0).map (fun r => r.1) =
      .ok { steer := -(1/2), throttle := 3/4, brake := 0 } ∧
    ¬ ((3 : Rat)/4 ≤ 3/10) := by
  constructor
  · have hmain := forward_normal_eq pidSharpLeft pStateSharp 0 obsCurve 0 cFresh rfl
      (by decide) (by decide) (by decide) (by decide)
    rw [hmain]
    have hout : (Controller.forward pidSharpLeft cFresh 0
        (AutoPolicy.pidInputOf pStateSharp obsCurve)).1 =
        { steer := -(1/2), throttle := 3/4, brake := 0 } := rfl
    have hneg : ¬(({ steer := -(1/2), throttle := 3/4, brake := 0 } : Control).steer > 1/10
        ∧ obsCurve.speed > 15) := by
      intro hcontra
      have hsteer := hcontra.1
      simp only [Control.steer] at hsteer
      norm_num at hsteer
    simp only [Except.map, AutoPolicy.capCurve, hout, hneg, if_false, ite_false]
  · norm_num

/-- Counterexample to claim C3: the claim says a collect-mode reset leaves the
eval-mode state of the same id unchanged.  On a fresh policy, eval-mode
forward for id 0 raises `KeyError`; after a single collect-mode reset of
id 0 — and no eval-mode operation at all — the very same eval-mode call
succeeds: the collect-mode reset changed the state eval mode reads. -/
theorem c3_mode_isolation_counterexample :
    AutoPolicy.forward_eval pidU (AutoPolicy.init Unit defaultConfig)
        [(0, obsEmergency)] (fun _ => 0) = .error (.keyError 0) ∧
    AutoPolicy.forward_eval pidU
        (AutoPolicy.reset_collect pidU (AutoPolicy.init Unit defaultConfig) [0])
        [(0, obsEmergency)] (fun _ => 0) =
      .ok ([(0, { steer := 0, throttle := 0, brake := 1 })],
        AutoPolicy.reset_collect pidU (AutoPolicy.init Unit defaultConfig) [0]) :=
  ⟨rfl, rfl⟩

/-- Claim C3 as amended: the two modes do not keep separate state —
`__init__` creates a single `_controller_dict` and a single
`_last_steer_dict` used by the methods of both modes, so a collect-mode reset
of an id installs exactly the controller and last-steer entries that
eval-mode forward for that id then uses (a subsequent eval-mode forward on
that id always succeeds), and symmetrically for an eval-mode reset followed
by collect-mode forward. -/
theorem c3_modes_share_state (pid : PIDSpec σ) (p : PolicyState σ) (i : Int) (obs : Obs)
    (smp : Int → Rat) :
    (∃ out, AutoPolicy.forward_eval pid (AutoPolicy.reset_collect pid p [i])
      [(i, obs)] smp = .ok out) ∧
    (∃ out, AutoPolicy.forward_collect pid (AutoPolicy.reset_eval pid p [i])
      [(i, obs)] smp = .ok out) := by
  constructor
  · obtain ⟨out, hout⟩ := forward_after_reset_ok pid p i p.cfg_noise obs (smp i)
    refine ⟨([(i, out.1)], out.2), ?_⟩
    show AutoPolicy.forwardLoop pid (AutoPolicy.reset pid p i p.cfg_noise) [(i, obs)] smp = _
    rw [AutoPolicy.forwardLoop, hout]
    rfl
  · obtain ⟨out, hout⟩ := forward_after_reset_ok pid p i false obs (smp i)
    refine ⟨([(i, out.1)], out.2), ?_⟩
    show AutoPolicy.forwardLoop pid (AutoPolicy.reset pid p i false) [(i, obs)] smp = _
    rw [AutoPolicy.forwardLoop, hout]
    rfl

/-- Claim C4: on a non-emergency step for an id with a controller, `_forward`
invokes the stored controller with the observation's current speed, location
and orientation, the target waypoint location, and target speed
`min(configured target speed, speed_limit)` (the `PIDInput` built by
`pidInputOf`), returns the possibly throttle-capped resulting command, stores
the stepped controller back, and updates the last-steer cache of the id to
the produced steer. -/
theorem c4_normal_tracking (pid : PIDSpec σ) (p : PolicyState σ) (i : Int) (obs : Obs)
    (sample : Rat) (c : Controller σ)
    (hc : dictGet p.controller_dict i = some c)
    (h1 : ¬ obs.command = -1)
    (h2 : ¬ (obs.agent_state = 2 ∨ obs.agent_state = 3))
    (h3 : ¬ (p.ignore_light = false ∧ obs.agent_state = 4))
    (h4 : ¬ (p.ignore_light = false ∧ obs.tl_state = 0 ∧ obs.tl_dis < 10)) :
    AutoPolicy.forward pid p i obs sample =
      .ok (AutoPolicy.capCurve
            (Controller.forward pid c sample (AutoPolicy.pidInputOf p obs)).1 obs.speed,
        { p with
          controller_dict := dictInsert p.controller_dict i
            (Controller.forward pid c sample (AutoPolicy.pidInputOf p obs)).2,
          last_steer_dict := dictInsert p.last_steer_dict i
            (AutoPolicy.capCurve
              (Controller.forward pid c sample (AutoPolicy.pidInputOf p obs)).1
              obs.speed).steer }) ∧
    ∀ r, AutoPolicy.forward pid p i obs sample = .ok r →
      dictGet r.2.last_steer_dict i = some r.1.steer := by
  have hmain := forward_normal_eq pid p i obs sample c hc h1 h2 h3 h4
  refine ⟨hmain, fun r hr => ?_⟩
  rw [hmain] at hr
  simp only [Except.ok.injEq] at hr
  rw [← hr]
  exact dictGet_insert_self _ _ _

/-- Witness for C4: a cruising observation on a freshly reset id 0. -/
theorem c4_normal_tracking_witness :
    AutoPolicy.forward pidU pState0 0 obsCruise 0 =
      .ok (AutoPolicy.capCurve
            (Controller.forward pidU cFresh 0 (AutoPolicy.pidInputOf pState0 obsCruise)).1
            obsCruise.speed,
        { pState0 with
          controller_dict := dictInsert pState0.controller_dict 0
            (Controller.forward pidU cFresh 0 (AutoPolicy.pidInputOf pState0 obsCruise)).2,
          last_steer_dict := dictInsert pState0.last_steer_dict 0
            (AutoPolicy.capCurve
              (Controller.forward pidU cFresh 0 (AutoPolicy.pidInputOf pState0 obsCruise)).1
              obsCruise.speed).steer }) ∧
    ∀ r, AutoPolicy.forward pidU pState0 0 obsCruise 0 = .ok r →
      dictGet r.2.last_steer_dict 0 = some r.1.steer :=
  c4_normal_tracking pidU pState0 0 obsCruise 0 cFresh rfl (by decide) (by decide)
    (by decide) (by decide)

/-- Claim C5: `_reset` of an id leaves exactly one controller entry for that
id — the freshly constructed controller (resolved gains, configured clamp
limits, optional noise wrapper, fresh internal PID state) — and zeroes the
last-steer cache entry of the id. -/
theorem c5_reset_unique_fresh_controller (pid : PIDSpec σ) (p : PolicyState σ) (i : Int)
    (n : Bool) :
    dictGet (AutoPolicy.reset pid p i n).controller_dict i =
      some (AutoPolicy.freshController pid p n) ∧
    dictCount (AutoPolicy.reset pid p i n).controller_dict i = 1 ∧
    dictGet (AutoPolicy.reset pid p i n).last_steer_dict i = some 0 := by
  refine ⟨reset_controller_lookup pid p i n, ?_, reset_laststeer_lookup pid p i n⟩
  simp only [AutoPolicy.reset]
  exact dictCount_insert_of_eq_zero _ _ _ (dictCount_pop_self p.controller_dict i)

/-- Claim C6 (refuted by the code, recorded as a code bug): `_reset_eval` /
`_reset_collect` with no ids run `for id in self._controller_dict:
self._reset(id)`, and `_reset` pops and re-appends the iterated key.  Under
CPython (≥ 3.8) dict semantics — modelled here and validated against the
interpreter — a policy tracking ids 0,1,2,3 resets ids 0 and 1 twice each,
never resets 2 and 3, and the call aborts with `RuntimeError: dictionary keys
changed during iteration`; with a single tracked id 0 the call resets it once
and then raises.  The claim's "each currently tracked id exactly once,
terminating normally" fails. -/
theorem c6_reset_all_runtime_error :
    resetAllTrace 64 (pyDictOfKeys [0, 1, 2, 3]) =
      some (.runtimeError [0, 1, 0, 1]) ∧
    resetAllTrace 64 (pyDictOfKeys [0]) = some (.runtimeError [0]) :=
  ⟨rfl, rfl⟩

/-- Claim C7: a batch containing an id with no controller makes the forward
call of either mode fail with a lookup error (`KeyError`); the error is
propagated, not recovered. -/
theorem c7_missing_controller_key_error (pid : PIDSpec σ) (p : PolicyState σ)
    (data : List (Int × Obs)) (smp : Int → Rat)
    (h : ∃ e ∈ data, dictGet p.controller_dict e.1 = none) :
    ∃ j, AutoPolicy.forward_eval pid p data smp = .error (.keyError j) ∧
      AutoPolicy.forward_collect pid p data smp = .error (.keyError j) := by
  suffices hload : ∃ j, AutoPolicy.forwardLoop pid p data smp = .error (.keyError j) by
    obtain ⟨j, hj⟩ := hload
    exact ⟨j, hj, hj⟩
  induction data generalizing p with
  | nil => simp at h
  | cons e rest ih =>
    obtain ⟨i, obs⟩ := e
    cases hget : dictGet p.controller_dict i with
    | none =>
      refine ⟨i, ?_⟩
      rw [AutoPolicy.forwardLoop]
      rw [show AutoPolicy.forward pid p i obs (smp i) = .error (.keyError i) by
        rw [AutoPolicy.forward, hget]]
    | some c =>
      cases hf : AutoPolicy.forward pid p i obs (smp i) with
      | error e' =>
        obtain ⟨j⟩ := e'
        refine ⟨j, ?_⟩
        rw [AutoPolicy.forwardLoop, hf]
      | ok r =>
        obtain ⟨ctl, p2⟩ := r
        have hrest : ∃ e ∈ rest, dictGet p2.controller_dict e.1 = none := by
          obtain ⟨e', he', hnone⟩ := h
          rcases List.mem_cons.mp he' with he0 | he1
          · exfalso
            rw [he0] at hnone
            simp only at hnone
            rw [hnone] at hget
            exact Option.noConfusion hget
          · exact ⟨e', he1,
              forward_preserves_none pid p i obs (smp i) (ctl, p2) hf e'.1 hnone⟩
        obtain ⟨j, hj⟩ := ih p2 hrest
        refine ⟨j, ?_⟩
        simp only [AutoPolicy.forwardLoop, hf, hj]

/-- Witness for C7: id 5 was never reset on a fresh policy, and forwarding a
batch containing it fails with a `KeyError` in both modes. -/
theorem c7_missing_controller_key_error_witness :
    ∃ j, AutoPolicy.forward_eval pidU (AutoPolicy.init Unit defaultConfig)
        [(5, obsCruise)] (fun _ => 0) = .error (.keyError j) ∧
      AutoPolicy.forward_collect pidU (AutoPolicy.init Unit defaultConfig)
        [(5, obsCruise)] (fun _ => 0) = .error (.keyError j) :=
  c7_missing_controller_key_error pidU (AutoPolicy.init Unit defaultConfig)
    [(5, obsCruise)] (fun _ => 0) ⟨(5, obsCruise), by simp, rfl⟩

/-- Claim C8: an eval-mode reset installs a controller with no steer-noise
wrapper; a collect-mode reset wraps the fresh controller with uniform noise
in `[-0.3, 0.3]` exactly when the configured noise flag is true; and the
wrapper perturbs only `steer` (by the drawn sample), leaving throttle and
brake untouched. -/
theorem c8_noise_only_in_collect (pid : PIDSpec σ) (p : PolicyState σ) (i : Int) :
    (∃ c, dictGet (AutoPolicy.reset_eval pid p [i]).controller_dict i = some c ∧
      c.noise = none) ∧
    (∃ c, dictGet (AutoPolicy.reset_collect pid p [i]).controller_dict i = some c ∧
      c.noise = if p.cfg_noise then some { low := -(3/10), high := 3/10 } else none) ∧
    (∀ (ncfg : NoiseCfg) (sample : Rat) (ctl : Control),
      (steerNoise (some ncfg) sample ctl).steer = ctl.steer + sample ∧
      (steerNoise (some ncfg) sample ctl).throttle = ctl.throttle ∧
      (steerNoise (some ncfg) sample ctl).brake = ctl.brake) := by
  refine ⟨⟨AutoPolicy.freshController pid p false, ?_, rfl⟩,
    ⟨AutoPolicy.freshController pid p p.cfg_noise, ?_, rfl⟩,
    fun ncfg sample ctl => ⟨rfl, rfl, rfl⟩⟩
  · exact reset_controller_lookup pid p i false
  · exact reset_controller_lookup pid p i p.cfg_noise

/-- Claim C9: `_reset` resolves the lateral and longitudinal gain sets
independently: an explicitly configured dict is used as is; a missing
(`None`) dict resolves to the highway preset when the configured target speed
exceeds 50 and to the city preset otherwise.  The resolution is lazy: `_init`
copies the configured (possibly `None`) dicts unchanged, and only `_reset`
resolves them. -/
theorem c9_lazy_gain_resolution (pid : PIDSpec σ) (p : PolicyState σ) (i : Int) (n : Bool) :
    (∃ c, dictGet (AutoPolicy.reset pid p i n).controller_dict i = some c ∧
      c.args_lateral = (match p.lateral_dict with
        | some d => d
        | none => if p.target_speed > 50 then DEFAULT_LAT_HW_DICT
                  else DEFAULT_LAT_CITY_DICT) ∧
      c.args_longitudinal = (match p.longitudinal_dict with
        | some d => d
        | none => if p.target_speed > 50 then DEFAULT_LONG_HW_DICT
                  else DEFAULT_LONG_CITY_DICT)) ∧
    (∀ cfg : PolicyCfg, (AutoPolicy.init σ cfg).lateral_dict = cfg.lateral_dict ∧
      (AutoPolicy.init σ cfg).longitudinal_dict = cfg.longitudinal_dict) := by
  refine ⟨⟨AutoPolicy.freshController pid p n, reset_controller_lookup pid p i n, ?_, ?_⟩,
    fun cfg => ⟨rfl, rfl⟩⟩
  · cases hl : p.lateral_dict with
    | none => simp [AutoPolicy.freshController, AutoPolicy.resolvedLateral, hl]
    | some d => simp [AutoPolicy.freshController, AutoPolicy.resolvedLateral, hl]
  · cases hl : p.longitudinal_dict with
    | none => simp [AutoPolicy.freshController, AutoPolicy.resolvedLongitudinal, hl]
    | some d => simp [AutoPolicy.freshController, AutoPolicy.resolvedLongitudinal, hl]

/-- Claim C10: on an emergency step the stored controller is not invoked: the
controller entry of the id — including its opaque accumulated-error state —
is exactly the same after the call (the step function of the PID model is
never applied; the whole policy state is returned unchanged). -/
theorem c10_emergency_keeps_pid_state (pid : PIDSpec σ) (p : PolicyState σ) (i : Int)
    (obs : Obs) (sample : Rat) (c : Controller σ) (s : Rat)
    (hc : dictGet p.controller_dict i = some c)
    (hs : dictGet p.last_steer_dict i = some s)
    (h : AutoPolicy.emergencyCond p obs) :
    (AutoPolicy.forward pid p i obs sample).map (fun r => dictGet r.2.controller_dict i) =
      .ok (some c) ∧
    (AutoPolicy.forward pid p i obs sample).map (fun r => r.2) = .ok p := by
  rw [forward_emergency_eq pid p i obs sample c s hc hs h]
  exact ⟨by rw [show (Except.ok ({ steer := s, throttle := 0, brake := 1 }, p) :
    Except PyErr (Control × PolicyState σ)).map (fun r => dictGet r.2.controller_dict i) =
      .ok (dictGet p.controller_dict i) from rfl, hc], rfl⟩

/-- Witness for C10: the emergency call on the freshly reset id 0 leaves its
controller entry (hence PID state) and the whole policy state unchanged. -/
theorem c10_emergency_keeps_pid_state_witness :
    (AutoPolicy.forward pidU pState0 0 obsEmergency 0).map
        (fun r => dictGet r.2.controller_dict 0) = .ok (some cFresh) ∧
    (AutoPolicy.forward pidU pState0 0 obsEmergency 0).map (fun r => r.2) = .ok pState0 :=
  c10_emergency_keeps_pid_state pidU pState0 0 obsEmergency 0 cFresh 0 rfl rfl (Or.inl rfl)
